import Mathlib

/-!
Verification of the multi-agent review engine of
`skills/multi-model-reviewer/scripts/multi_model_review.py`.

The definitions below are a shallow embedding of the Python source:
pure data (enums, dataclasses) become Lean structures and inductives,
the untyped JSON dicts that carry raw findings become a record of
optional string fields, Python exceptions become `Option`/`none`
(a `none` result marks a raised, uncaught exception), and Python's
insertion-ordered dictionaries become association lists kept in
insertion order.
-/

set_option autoImplicit false

/-- class `Severity(Enum)` in the source: severity levels of a review issue. -/
inductive Severity where
  | error
  | warning
  | info
  deriving DecidableEq, Repr

/-- class `IssueType(Enum)` in the source: the four recognised issue types. -/
inductive IssueType where
  | spec_program_mismatch
  | program_test_gap
  | test_spec_mismatch
  | metadata_mismatch
  deriving DecidableEq, Repr

/-- The enum constructor call `IssueType(s)`: `some` on one of the four
declared values, `none` for any other string (Python raises `ValueError`,
modelled as `none`). -/
def IssueType.ofString : String → Option IssueType
  | "spec_program_mismatch" => some IssueType.spec_program_mismatch
  | "program_test_gap" => some IssueType.program_test_gap
  | "test_spec_mismatch" => some IssueType.test_spec_mismatch
  | "metadata_mismatch" => some IssueType.metadata_mismatch
  | _ => none

/-- A raw finding / arbiter-verdict item: the untyped JSON dict shape the
agents and the arbiter return. Each field models `item.get("...")`:
`none` when the key is absent. `detected_by` models
`item.get("detected_by", [])`. -/
structure RawFinding where
  type : Option String := none
  location : Option String := none
  description : Option String := none
  spec_location : Option String := none
  program_location : Option String := none
  suggested_fix : Option String := none
  detected_by : List String := []
  deriving DecidableEq, Repr

/-- dataclass `ReviewIssue` in the source (fields used by the engine). -/
structure ReviewIssue where
  id : String
  severity : Severity
  issue_type : IssueType
  description : String
  detected_by : List String
  spec_location : Option String := none
  program_location : Option String := none
  suggested_fix : Option String := none
  confidence : String := "medium"
  deriving DecidableEq, Repr

/-- The dict a reviewer's `review` coroutine returns: `{"model": ...}` plus
either an `"error"` key (`error = some reason`) or a findings payload whose
issue list is `finding.get("findings", {}).get("issues", [])`. -/
structure AgentFinding where
  model : String
  error : Option String := none
  issues : List RawFinding := []
  deriving DecidableEq, Repr

/-- A successfully decoded arbiter response:
`result.get("confirmed_issues", [])` and `result.get("warnings", [])`. -/
structure ArbiterVerdict where
  confirmed_issues : List RawFinding := []
  warnings : List RawFinding := []
  deriving DecidableEq, Repr

/-- Python renders `None` inside an f-string as the string `"None"`. -/
def pyStrOpt : Option String → String
  | some s => s
  | none => "None"

/-- The grouping key `f"{issue.get('type')}:{issue.get('location')}"` of
`_consensus_filter`. -/
def findingKey (issue : RawFinding) : String :=
  pyStrOpt issue.type ++ ":" ++ pyStrOpt issue.location

/-- Python's `f"{n:03d}"`: decimal rendering left-padded with zeros to
width 3. -/
def pad3 (n : Nat) : String :=
  if n < 10 then "00" ++ toString n
  else if n < 100 then "0" ++ toString n
  else toString n

/-- The issue id `f"ISSUE-{issue_id:03d}"`. -/
def issueId (n : Nat) : String := "ISSUE-" ++ pad3 n

/-- The `confirmed_issues` loop of `_parse_arbiter_result`: one `error`
issue per item, ids counting up from `n`; an unknown `type` string raises
(`none`). -/
def buildConfirmed : Nat → List RawFinding → Option (List ReviewIssue)
  | _, [] => some []
  | n, item :: rest =>
    match IssueType.ofString (item.type.getD "spec_program_mismatch") with
    | none => none
    | some t =>
      match buildConfirmed (n + 1) rest with
      | none => none
      | some tail =>
        some ({ id := issueId n, severity := Severity.error, issue_type := t,
                description := item.description.getD "",
                detected_by := item.detected_by,
                spec_location := item.spec_location,
                program_location := item.program_location,
                suggested_fix := item.suggested_fix,
                confidence := "high" } :: tail)

/-- The `warnings` loop of `_parse_arbiter_result`: one `warning` issue per
item; only id, severity, type, description, detected_by and confidence are
set — the other fields keep their dataclass defaults (`None`). -/
def buildWarnings : Nat → List RawFinding → Option (List ReviewIssue)
  | _, [] => some []
  | n, item :: rest =>
    match IssueType.ofString (item.type.getD "spec_program_mismatch") with
    | none => none
    | some t =>
      match buildWarnings (n + 1) rest with
      | none => none
      | some tail =>
        some ({ id := issueId n, severity := Severity.warning, issue_type := t,
                description := item.description.getD "",
                detected_by := item.detected_by,
                confidence := "medium" } :: tail)

/-- `ClaudeReviewer._parse_arbiter_result`: confirmed issues first, then
warnings, ids sequential across both groups. -/
def parse_arbiter_result (v : ArbiterVerdict) : Option (List ReviewIssue) :=
  match buildConfirmed 1 v.confirmed_issues with
  | none => none
  | some cs =>
    match buildWarnings (v.confirmed_issues.length + 1) v.warnings with
    | none => none
    | some ws => some (cs ++ ws)

/-- One vote-table entry of `_consensus_filter`: the key, the
first-encountered raw finding for that key (`issue_details[key]`), and the
vote list (`issue_votes[key]`, one entry appended per raw report). -/
abbrev VoteEntry := String × RawFinding × List String

/-- Recording one report in the vote table: a fresh key is appended at the
end with the reporting model as its first vote and the report as its
details (Python dict insertion order); an existing key gets the model
appended to its vote list, details unchanged. -/
def addVote (key model : String) (issue : RawFinding) :
    List VoteEntry → List VoteEntry
  | [] => [(key, issue, [model])]
  | e :: rest =>
    if e.1 = key then (e.1, e.2.1, e.2.2 ++ [model]) :: rest
    else e :: addVote key model issue rest

/-- Processing one `(model, raw finding)` report in the vote-collection
loop of `_consensus_filter`. -/
def stepVote (acc : List VoteEntry) (r : String × RawFinding) : List VoteEntry :=
  addVote (findingKey r.2) r.1 r.2 acc

/-- The vote-collection loops of `_consensus_filter`: results with an
`"error"` key are skipped, every raw finding of every other result casts
one vote under its key. -/
def collectVotes (all_findings : List AgentFinding) : List VoteEntry :=
  all_findings.foldl
    (fun acc f =>
      if f.error.isSome then acc
      else f.issues.foldl (fun a i => stepVote a (f.model, i)) acc)
    []

/-- The classification loop of `_consensus_filter`: three or more votes
give an `error`/`"high"` issue, exactly two votes a `warning`/`"medium"`
issue, fewer are discarded; ids count only emitted issues; constructing an
issue converts the details' type string, raising (`none`) when it is
present but unknown. -/
def classifyVotes : Nat → List VoteEntry → Option (List ReviewIssue)
  | _, [] => some []
  | n, e :: rest =>
    if 3 ≤ e.2.2.length then
      match IssueType.ofString (e.2.1.type.getD "spec_program_mismatch") with
      | none => none
      | some t =>
        match classifyVotes (n + 1) rest with
        | none => none
        | some tail =>
          some ({ id := issueId n, severity := Severity.error, issue_type := t,
                  description := e.2.1.description.getD "",
                  detected_by := e.2.2, confidence := "high" } :: tail)
    else if e.2.2.length = 2 then
      match IssueType.ofString (e.2.1.type.getD "spec_program_mismatch") with
      | none => none
      | some t =>
        match classifyVotes (n + 1) rest with
        | none => none
        | some tail =>
          some ({ id := issueId n, severity := Severity.warning, issue_type := t,
                  description := e.2.1.description.getD "",
                  detected_by := e.2.2, confidence := "medium" } :: tail)
    else classifyVotes n rest

/-- `ClaudeReviewer._consensus_filter`. -/
def consensus_filter (all_findings : List AgentFinding) : Option (List ReviewIssue) :=
  classifyVotes 1 (collectVotes all_findings)

/-- `ClaudeReviewer.filter_false_positives`: the arbiter subprocess outcome
is `some verdict` on success and `none` when the call raised; any exception
inside the `try` block — including the `ValueError` a bad verdict item
raises in `_parse_arbiter_result` — falls back to `_consensus_filter`,
whose own exceptions propagate. -/
def filter_false_positives (arbiter_verdict : Option ArbiterVerdict)
    (all_findings : List AgentFinding) : Option (List ReviewIssue) :=
  match arbiter_verdict with
  | none => consensus_filter all_findings
  | some v =>
    match parse_arbiter_result v with
    | none => consensus_filter all_findings
    | some issues => some issues

/-- dataclass `ReviewReport`. `passed` is a Python `int`, so it is modelled
as `Int` (it is computed by subtraction and may be negative). -/
structure ReviewReport where
  timestamp : String
  spec_dir : String
  total_checks : Nat
  passed : Int
  warnings : Nat
  errors : Nat
  issues : List ReviewIssue
  deriving DecidableEq, Repr

/-- Step 6 of `MultiModelReviewOrchestrator.review`: the report literal
with `total_checks = len(self.reviewers) * 10`, severity counts, and then
`report.passed = report.total_checks - report.warnings - report.errors`. -/
def buildReport (timestamp spec_dir : String) (num_reviewers : Nat)
    (issues : List ReviewIssue) : ReviewReport :=
  let total := num_reviewers * 10
  let w := (issues.filter fun i => i.severity == Severity.warning).length
  let e := (issues.filter fun i => i.severity == Severity.error).length
  { timestamp := timestamp, spec_dir := spec_dir, total_checks := total,
    passed := (total : Int) - w - e, warnings := w, errors := e,
    issues := issues }

/-- `MultiModelReviewOrchestrator.review`, from the collected agent results
on: the arbiter filter step followed by report assembly. `timestamp` is the
`datetime.now().isoformat()` value of the invocation, `num_reviewers` is
`len(self.reviewers)`, and a `none` result is an uncaught exception
escaping `review`. -/
def review (timestamp spec_dir : String) (num_reviewers : Nat)
    (arbiter_verdict : Option ArbiterVerdict)
    (all_findings : List AgentFinding) : Option ReviewReport :=
  (filter_false_positives arbiter_verdict all_findings).map
    (buildReport timestamp spec_dir num_reviewers)

/-- The `consensus` section of the configuration dict. -/
structure ConsensusConfig where
  error_threshold : Int
  warning_threshold : Int
  deriving DecidableEq, Repr

/-- The `models` section of the configuration dict:
`models.get(name, {}).get("enabled", True)` per backend. -/
structure ModelsConfig where
  chatgpt : Bool := true
  gemini : Bool := true
  codex : Bool := true
  qwen : Bool := true
  claude : Bool := true
  deriving DecidableEq, Repr

/-- The configuration dict loaded by `_load_config`. -/
structure Config where
  models : ModelsConfig := {}
  consensus : ConsensusConfig := ⟨3, 2⟩
  deriving DecidableEq, Repr

/-- The default config literal in `_load_config`. -/
def default_config : Config := { models := {}, consensus := ⟨3, 2⟩ }

/-- `MultiModelReviewOrchestrator._load_config`: the given file's config
when present, else the default; no validation of any kind is performed. -/
def load_config : Option Config → Config
  | some c => c
  | none => default_config

/-- `MultiModelReviewOrchestrator._init_reviewers`: the reviewers
constructed for the enabled models, in construction order. -/
def init_reviewers (c : Config) : List String :=
  (if c.models.chatgpt then ["chatgpt"] else []) ++
  (if c.models.gemini then ["gemini"] else []) ++
  (if c.models.codex then ["codex"] else []) ++
  (if c.models.qwen then ["qwen"] else []) ++
  (if c.models.claude then ["claude"] else [])

/-- The orchestrated run: `__init__` loads the config and builds the
reviewer list, `review` then produces the report. The config's `consensus`
section is loaded but never read anywhere in the source. -/
def orchestrate (config : Option Config) (timestamp spec_dir : String)
    (arbiter_verdict : Option ArbiterVerdict)
    (all_findings : List AgentFinding) : Option ReviewReport :=
  review timestamp spec_dir (init_reviewers (load_config config)).length
    arbiter_verdict all_findings

/-! ## Supporting lemmas for the arbiter-verdict parsing path -/

/-- An arbiter-path issue retains the item's fix and location fields. -/
def retainsArbiterFields (item : RawFinding) (i : ReviewIssue) : Prop :=
  i.suggested_fix = item.suggested_fix ∧
  i.spec_location = item.spec_location ∧
  i.program_location = item.program_location

lemma buildConfirmed_retains {n : Nat} {items : List RawFinding}
    {out : List ReviewIssue} (h : buildConfirmed n items = some out) :
    List.Forall₂ retainsArbiterFields items out := by
  induction items generalizing n out with
  | nil =>
    simp only [buildConfirmed, Option.some.injEq] at h
    subst h
    exact List.Forall₂.nil
  | cons item rest ih =>
    simp only [buildConfirmed] at h
    split at h
    · exact absurd h (by simp)
    · split at h
      · exact absurd h (by simp)
      · rename_i tail heq
        simp only [Option.some.injEq] at h
        subst h
        exact List.Forall₂.cons ⟨rfl, rfl, rfl⟩ (ih heq)

lemma buildWarnings_defaults {n : Nat} {items : List RawFinding}
    {out : List ReviewIssue} (h : buildWarnings n items = some out) :
    ∀ i ∈ out, i.suggested_fix = none ∧ i.spec_location = none ∧
      i.program_location = none := by
  induction items generalizing n out with
  | nil =>
    simp only [buildWarnings, Option.some.injEq] at h
    subst h
    intro i hi
    exact absurd hi (List.not_mem_nil i)
  | cons item rest ih =>
    simp only [buildWarnings] at h
    split at h
    · exact absurd h (by simp)
    · split at h
      · exact absurd h (by simp)
      · rename_i tail heq
        simp only [Option.some.injEq] at h
        subst h
        intro i hi
        rcases List.mem_cons.mp hi with hi | hi
        · subst hi; exact ⟨rfl, rfl, rfl⟩
        · exact ih heq i hi

/-! ## C10 -/

/-- C10: in the arbiter-verdict path, issues built from the `warnings`
group have `suggested_fix`, `spec_location` and `program_location` left
empty even when the arbiter's entry carries those fields, while issues
built from `confirmed_issues` retain them. -/
theorem C10_warning_fields_dropped (v : ArbiterVerdict)
    (issues : List ReviewIssue) (h : parse_arbiter_result v = some issues) :
    List.Forall₂ retainsArbiterFields v.confirmed_issues
      (issues.take v.confirmed_issues.length) ∧
    ∀ i ∈ issues.drop v.confirmed_issues.length,
      i.suggested_fix = none ∧ i.spec_location = none ∧
        i.program_location = none := by
  unfold parse_arbiter_result at h
  split at h
  · exact absurd h (by simp)
  · rename_i cs hcs
    split at h
    · exact absurd h (by simp)
    · rename_i ws hws
      simp only [Option.some.injEq] at h
      subst h
      have hret := buildConfirmed_retains hcs
      have hlen : v.confirmed_issues.length = cs.length := hret.length_eq
      constructor
      · rw [hlen, List.take_left]
        exact hret
      · rw [hlen, List.drop_left]
        exact buildWarnings_defaults hws

def c10ConfirmedItem : RawFinding :=
  { type := some "program_test_gap", description := some "gap",
    detected_by := ["gemini"], spec_location := some "s1",
    program_location := some "p1", suggested_fix := some "cf" }

def c10WarningItem : RawFinding :=
  { type := some "test_spec_mismatch", description := some "warn",
    detected_by := ["codex"], spec_location := some "s2",
    program_location := some "p2", suggested_fix := some "wf" }

def c10Verdict : ArbiterVerdict :=
  { confirmed_issues := [c10ConfirmedItem], warnings := [c10WarningItem] }

def c10Issues : List ReviewIssue :=
  [ { id := "ISSUE-001", severity := Severity.error,
      issue_type := IssueType.program_test_gap, description := "gap",
      detected_by := ["gemini"], spec_location := some "s1",
      program_location := some "p1", suggested_fix := some "cf",
      confidence := "high" },
    { id := "ISSUE-002", severity := Severity.warning,
      issue_type := IssueType.test_spec_mismatch, description := "warn",
      detected_by := ["codex"], confidence := "medium" } ]

/-- C10 witness: a concrete verdict whose warning entry carries fix and
location fields that the produced warning issue drops. -/
theorem C10_witness :
    List.Forall₂ retainsArbiterFields c10Verdict.confirmed_issues
      (c10Issues.take c10Verdict.confirmed_issues.length) ∧
    ∀ i ∈ c10Issues.drop c10Verdict.confirmed_issues.length,
      i.suggested_fix = none ∧ i.spec_location = none ∧
        i.program_location = none :=
  C10_warning_fields_dropped c10Verdict c10Issues (by decide)

/-! ## C2 -/

/-- C2: every report a successful run produces satisfies
`passed + warnings + errors = total_checks`, with `warnings` and `errors`
counting the issues of the respective severities. -/
theorem C2_report_invariant (t d : String) (n : Nat)
    (arb : Option ArbiterVerdict) (fs : List AgentFinding)
    (r : ReviewReport) (h : review t d n arb fs = some r) :
    r.passed + (r.warnings : Int) + (r.errors : Int) = (r.total_checks : Int) ∧
    r.warnings = (r.issues.filter fun i => i.severity == Severity.warning).length ∧
    r.errors = (r.issues.filter fun i => i.severity == Severity.error).length := by
  unfold review at h
  rcases Option.map_eq_some'.mp h with ⟨issues, _, hb⟩
  subst hb
  refine ⟨?_, rfl, rfl⟩
  simp only [buildReport]
  omega

def c2Item : RawFinding :=
  { type := some "metadata_mismatch", location := some "m" }

def c2Findings : List AgentFinding :=
  [ { model := "qwen", issues := [c2Item] },
    { model := "claude", issues := [c2Item] } ]

def c2Issue : ReviewIssue :=
  { id := "ISSUE-001", severity := Severity.warning,
    issue_type := IssueType.metadata_mismatch, description := "",
    detected_by := ["qwen", "claude"], confidence := "medium" }

def c2Report : ReviewReport :=
  { timestamp := "t", spec_dir := "s", total_checks := 50, passed := 49,
    warnings := 1, errors := 0, issues := [c2Issue] }

/-- C2 witness: the invariant evaluated on a concrete fallback run with
one two-agent warning. -/
theorem C2_witness :
    c2Report.passed + (c2Report.warnings : Int) + (c2Report.errors : Int) =
      (c2Report.total_checks : Int) ∧
    c2Report.warnings =
      (c2Report.issues.filter fun i => i.severity == Severity.warning).length ∧
    c2Report.errors =
      (c2Report.issues.filter fun i => i.severity == Severity.error).length :=
  C2_report_invariant "t" "s" 5 none c2Findings c2Report (by decide)

/-! ## C4 -/

def c4Item : RawFinding := { type := some "spec_program_mismatch" }

/-- C4 counterexample: a raw finding with no location field is keyed with
location component `"None"` (Python renders `None` in the f-string), not
`"unknown"` as claimed. -/
theorem C4_counterexample :
    findingKey c4Item = "spec_program_mismatch:None" ∧
    findingKey c4Item ≠ "spec_program_mismatch:unknown" := by
  decide

/-- C4 (amended): a raw finding with no location field is keyed with the
default location string `"None"`, so two location-less raw findings of the
same type share one key whose location component is `"None"`. -/
theorem C4_default_location (i j : RawFinding) (hi : i.location = none)
    (hj : j.location = none) (ht : i.type = j.type) :
    findingKey i = findingKey j ∧
    findingKey i = pyStrOpt i.type ++ ":None" := by
  constructor
  · simp [findingKey, hi, hj, ht]
  · rw [findingKey, hi]
    show pyStrOpt i.type ++ ":" ++ "None" = pyStrOpt i.type ++ ":None"
    rw [String.append_assoc]
    congr 1

def c4ItemA : RawFinding := { type := some "program_test_gap" }

def c4ItemB : RawFinding :=
  { type := some "program_test_gap", description := some "other words" }

/-- C4 witness: two concrete location-less findings of the same type share
the key `"program_test_gap:None"`. -/
theorem C4_witness :
    findingKey c4ItemA = findingKey c4ItemB ∧
    findingKey c4ItemA = pyStrOpt c4ItemA.type ++ ":None" :=
  C4_default_location c4ItemA c4ItemB rfl rfl rfl

/-! ## C6 -/

def c6Verdict : ArbiterVerdict :=
  { confirmed_issues := List.replicate 11 ({} : RawFinding) }

/-- C6 counterexample: one reviewer gives `total_checks = 10`; an arbiter
verdict with 11 confirmed issues makes `passed = 10 - 0 - 11 = -1`, which
is negative — no clamping to 0 happens. -/
theorem C6_counterexample :
    (review "t" "s" 1 (some c6Verdict) []).map (fun r => r.passed) =
      some (-1) := by
  decide

/-- C6 (amended): `passed` is exactly
`total_checks - warnings - errors` as a plain integer difference; it is
not clamped and can be negative, but the run still returns a report. -/
theorem C6_passed_unclamped (t d : String) (n : Nat)
    (arb : Option ArbiterVerdict) (fs : List AgentFinding)
    (r : ReviewReport) (h : review t d n arb fs = some r) :
    r.passed = (r.total_checks : Int) - (r.warnings : Int) - (r.errors : Int) := by
  unfold review at h
  rcases Option.map_eq_some'.mp h with ⟨issues, _, hb⟩
  subst hb
  rfl

/-- C6 witness: the amended identity evaluated on the concrete
over-counted run, where `passed` is `-1`. -/
theorem C6_witness :
    (ReviewReport.passed
        { timestamp := "t", spec_dir := "s", total_checks := 10,
          passed := -1, warnings := 0, errors := 11,
          issues := (List.range 11).map fun k =>
            { id := issueId (k + 1), severity := Severity.error,
              issue_type := IssueType.spec_program_mismatch,
              description := "", detected_by := [], confidence := "high" } }) =
      ((10 : Nat) : Int) - ((0 : Nat) : Int) - ((11 : Nat) : Int) :=
  C6_passed_unclamped "t" "s" 1 (some c6Verdict) [] _ (by decide)

/-! ## C9 -/

def c9Item : RawFinding :=
  { type := some "spec_program_mismatch", location := some "Order#total" }

def c9Findings : List AgentFinding :=
  [ { model := "chatgpt", issues := [c9Item] },
    { model := "gemini", issues := [c9Item] },
    { model := "codex", issues := [c9Item] } ]

/-- C9 counterexample: two invocations of the run over the same canned
agent results but at different wall-clock times produce reports that are
not byte-identical — the `timestamp` field differs. -/
theorem C9_counterexample :
    review "2024-01-01T00:00:00" "specs" 5 none c9Findings ≠
      review "2024-01-02T00:00:00" "specs" 5 none c9Findings := by
  decide

/-- C9 (amended): for a fixed set of canned agent results, any two
invocations of the run produce identical reports — identical issue lists,
ids and counts — except for the `timestamp` field, which records the
invocation's wall-clock time. -/
theorem C9_deterministic_up_to_timestamp (t1 t2 d : String) (n : Nat)
    (arb : Option ArbiterVerdict) (fs : List AgentFinding) :
    (review t1 d n arb fs).map (fun r => { r with timestamp := "" }) =
      (review t2 d n arb fs).map (fun r => { r with timestamp := "" }) := by
  unfold review
  cases filter_false_positives arb fs <;> rfl

/-! ## C3 -/

def c3UnknownItem : RawFinding :=
  { type := some "totally_unknown_type", location := some "file#elem" }

def c3MissingTypeItem : RawFinding := { location := some "file#elem" }

def c3Findings : List AgentFinding :=
  [ { model := "gemini", issues := [c3UnknownItem] },
    { model := "codex", issues := [c3UnknownItem] } ]

/-- C3 evaluation at the failing input: a raw finding whose type string is
not an `IssueType` value makes the fallback consensus path raise
`ValueError` (`none`), and makes the arbiter-verdict parsing path raise as
well instead of mapping to `spec_program_mismatch`; moreover a finding
with no type at all is defaulted to `spec_program_mismatch` but keeps
confidence `"high"` — confidence `"low"` is never produced. -/
theorem C3_unknown_type_raises :
    consensus_filter c3Findings = none ∧
    parse_arbiter_result { confirmed_issues := [c3UnknownItem] } = none ∧
    (parse_arbiter_result { confirmed_issues := [c3MissingTypeItem] }).map
        (List.map fun i => (i.issue_type, i.confidence)) =
      some [(IssueType.spec_program_mismatch, "high")] := by
  decide

/-! ## C7 -/

def c7UnknownItem : RawFinding :=
  { type := some "mystery_type", location := some "a#b" }

def c7Findings : List AgentFinding :=
  [ { model := "chatgpt", error := some "API key not configured" },
    { model := "gemini", issues := [c7UnknownItem] },
    { model := "codex", issues := [c7UnknownItem] } ]

/-- C7 evaluation at the failing input: an arbiter failure is indeed
recovered by switching to the fallback consensus rule, but the fallback
itself raises an uncaught `ValueError` on a corroborated finding with an
unknown type string, so the top-level review operation faults (`none`)
even though no configuration error is involved. -/
theorem C7_uncaught_fault_escapes :
    filter_false_positives none c7Findings = consensus_filter c7Findings ∧
    review "t" "s" 5 none c7Findings = none := by
  exact ⟨rfl, by decide⟩

/-! ## C8 -/

def c8BadConfig : Config := { consensus := ⟨1, 2⟩ }

def c8HugeConfig : Config := { consensus := ⟨1000, 999⟩ }

def c8Item : RawFinding :=
  { type := some "spec_program_mismatch", location := some "x" }

def c8Findings : List AgentFinding :=
  [ { model := "chatgpt", issues := [c8Item] },
    { model := "gemini", issues := [c8Item] },
    { model := "codex", issues := [c8Item] } ]

/-- C8 counterexample: a configuration violating
`error_threshold > warning_threshold ≥ 1` (here `1 < 2`) causes no fatal
configuration error — the run proceeds and returns a report; and with
`error_threshold = 1000` a key corroborated 3 times is still classified
`error`, because the fallback thresholds are the hard-coded constants
3 and 2, not the configured values. -/
theorem C8_counterexample :
    (orchestrate (some c8BadConfig) "t" "s" none []).isSome = true ∧
    (orchestrate (some c8HugeConfig) "t" "s" none c8Findings).map
        (fun r => r.issues.map fun i => (i.severity, i.confidence)) =
      some [(Severity.error, "high")] := by
  decide

/-- C8 (amended): the fallback severity thresholds are the hard-coded
constants 3 and 2; the configuration's `consensus` section is loaded but
never read, so the orchestrated run is entirely independent of the
configured thresholds, and no configuration — valid or not — is ever
rejected before dispatch. -/
theorem C8_thresholds_ignored (m : ModelsConfig) (c1 c2 : ConsensusConfig)
    (t d : String) (arb : Option ArbiterVerdict) (fs : List AgentFinding) :
    orchestrate (some { models := m, consensus := c1 }) t d arb fs =
      orchestrate (some { models := m, consensus := c2 }) t d arb fs := rfl

/-! ## Vote-table characterization (Normalizer + fallback, for C1 and C5) -/

/-- The flattened sequence of `(model, raw finding)` reports the
vote-collection loop visits: `Err` results contribute nothing, `Ok`
results contribute their findings in order, agents in dispatcher order. -/
def okReports : List AgentFinding → List (String × RawFinding)
  | [] => []
  | f :: fs =>
    if f.error.isSome then okReports fs
    else (f.issues.map fun i => (f.model, i)) ++ okReports fs

/-- The reports whose computed key is `k`, in encounter order. -/
def keyReports (k : String) (rs : List (String × RawFinding)) :
    List (String × RawFinding) :=
  rs.filter fun r => findingKey r.2 == k

/-- The vote-table entry the reports of one key give rise to: details from
the first report, one vote per report in order; `none` when the key was
never reported. -/
def entryOfReports : List (String × RawFinding) → Option (RawFinding × List String)
  | [] => none
  | r :: krs => some (r.2, r.1 :: krs.map Prod.fst)

/-- Python's `issue_details[key] / issue_votes[key]` read on the modelled
vote table. -/
def lookupEntry (k : String) : List VoteEntry → Option (RawFinding × List String)
  | [] => none
  | e :: rest => if e.1 = k then some e.2 else lookupEntry k rest

/-- The keys of the vote table, in insertion order. -/
def keysOf (l : List VoteEntry) : List String := l.map fun e => e.1

lemma lookupEntry_addVote_self (k m : String) (i : RawFinding)
    (l : List VoteEntry) :
    lookupEntry k (addVote k m i l) =
      some (match lookupEntry k l with
            | some dvs => (dvs.1, dvs.2 ++ [m])
            | none => (i, [m])) := by
  induction l with
  | nil => simp [addVote, lookupEntry]
  | cons e rest ih =>
    by_cases he : e.1 = k
    · simp [addVote, lookupEntry, he]
    · simp [addVote, lookupEntry, he, ih]

lemma lookupEntry_addVote_other (k m : String) (i : RawFinding) (q : String)
    (hne : q ≠ k) (l : List VoteEntry) :
    lookupEntry q (addVote k m i l) = lookupEntry q l := by
  induction l with
  | nil => simp [addVote, lookupEntry, Ne.symm hne]
  | cons e rest ih =>
    by_cases he : e.1 = k
    · have hq : e.1 ≠ q := fun h => hne (h ▸ he)
      simp [addVote, lookupEntry, he, hq, Ne.symm hne]
    · by_cases hq : e.1 = q
      · simp [addVote, lookupEntry, he, hq, hne]
      · simp [addVote, lookupEntry, he, hq, hne, ih]

lemma lookupEntry_foldl_some (rs : List (String × RawFinding))
    (acc : List VoteEntry) (k : String) (d : RawFinding) (vs : List String)
    (h : lookupEntry k acc = some (d, vs)) :
    lookupEntry k (rs.foldl stepVote acc) =
      some (d, vs ++ (keyReports k rs).map Prod.fst) := by
  induction rs generalizing acc vs with
  | nil => simp [keyReports, h]
  | cons r rs2 ih =>
    simp only [List.foldl_cons]
    by_cases hk : findingKey r.2 = k
    · have h1 : lookupEntry k (stepVote acc r) = some (d, vs ++ [r.1]) := by
        rw [stepVote, hk, lookupEntry_addVote_self, h]
      rw [ih _ _ h1]
      simp [keyReports, List.filter_cons, hk]
    · have h1 : lookupEntry k (stepVote acc r) = some (d, vs) := by
        rw [stepVote]
        rw [lookupEntry_addVote_other _ _ _ _ (fun he => hk he.symm)]
        exact h
      rw [ih _ _ h1]
      simp [keyReports, List.filter_cons, hk]

lemma lookupEntry_foldl_none (rs : List (String × RawFinding))
    (acc : List VoteEntry) (k : String) (h : lookupEntry k acc = none) :
    lookupEntry k (rs.foldl stepVote acc) =
      entryOfReports (keyReports k rs) := by
  induction rs generalizing acc with
  | nil => simp [keyReports, entryOfReports, h]
  | cons r rs2 ih =>
    simp only [List.foldl_cons]
    by_cases hk : findingKey r.2 = k
    · have h1 : lookupEntry k (stepVote acc r) = some (r.2, [r.1]) := by
        rw [stepVote, hk, lookupEntry_addVote_self, h]
      rw [lookupEntry_foldl_some rs2 _ k r.2 [r.1] h1]
      simp [keyReports, List.filter_cons, hk, entryOfReports]
    · have h1 : lookupEntry k (stepVote acc r) = none := by
        rw [stepVote]
        rw [lookupEntry_addVote_other _ _ _ _ (fun he => hk he.symm)]
        exact h
      rw [ih _ h1]
      simp [keyReports, List.filter_cons, hk]

lemma foldl_agents (fs : List AgentFinding) (acc : List VoteEntry) :
    fs.foldl
      (fun acc f =>
        if f.error.isSome then acc
        else f.issues.foldl (fun a i => stepVote a (f.model, i)) acc)
      acc =
    (okReports fs).foldl stepVote acc := by
  induction fs generalizing acc with
  | nil => rfl
  | cons f fs2 ih =>
    simp only [List.foldl_cons]
    by_cases herr : f.error.isSome
    · rw [if_pos herr, ih]
      rw [okReports, if_pos herr]
    · rw [if_neg herr, ih]
      rw [okReports, if_neg herr, List.foldl_append, List.foldl_map]

lemma collectVotes_eq_foldl (fs : List AgentFinding) :
    collectVotes fs = (okReports fs).foldl stepVote [] :=
  foldl_agents fs []

lemma lookupEntry_collectVotes (fs : List AgentFinding) (k : String) :
    lookupEntry k (collectVotes fs) =
      entryOfReports (keyReports k (okReports fs)) := by
  rw [collectVotes_eq_foldl]
  exact lookupEntry_foldl_none _ _ _ rfl

lemma lookupEntry_eq_none_iff (k : String) (l : List VoteEntry) :
    lookupEntry k l = none ↔ k ∉ keysOf l := by
  induction l with
  | nil => simp [lookupEntry, keysOf]
  | cons e rest ih =>
    by_cases he : e.1 = k <;>
      simp [lookupEntry, keysOf, he, ih, eq_comm (a := k)]

lemma keysOf_nil : keysOf [] = [] := rfl

lemma keysOf_cons (e : VoteEntry) (l : List VoteEntry) :
    keysOf (e :: l) = e.1 :: keysOf l := rfl

lemma keysOf_addVote (k m : String) (i : RawFinding) (l : List VoteEntry) :
    keysOf (addVote k m i l) =
      if lookupEntry k l = none then keysOf l ++ [k] else keysOf l := by
  induction l with
  | nil => simp [addVote, lookupEntry, keysOf]
  | cons e rest ih =>
    by_cases he : e.1 = k
    · simp [addVote, lookupEntry, keysOf, he]
    · have h1 : addVote k m i (e :: rest) = e :: addVote k m i rest := by
        simp [addVote, he]
      have h2 : lookupEntry k (e :: rest) = lookupEntry k rest := by
        simp [lookupEntry, he]
      rw [h1, h2, keysOf_cons, ih]
      by_cases hr : lookupEntry k rest = none
      · rw [if_pos hr, if_pos hr, keysOf_cons]
        simp
      · rw [if_neg hr, if_neg hr, keysOf_cons]

lemma nodup_keysOf_addVote (k m : String) (i : RawFinding)
    (l : List VoteEntry) (h : (keysOf l).Nodup) :
    (keysOf (addVote k m i l)).Nodup := by
  rw [keysOf_addVote]
  by_cases hl : lookupEntry k l = none
  · rw [if_pos hl]
    have hk : k ∉ keysOf l := (lookupEntry_eq_none_iff k l).mp hl
    simp [List.nodup_append, h, hk]
  · rw [if_neg hl]
    exact h

lemma nodup_keysOf_foldl (rs : List (String × RawFinding))
    (acc : List VoteEntry) (h : (keysOf acc).Nodup) :
    (keysOf (rs.foldl stepVote acc)).Nodup := by
  induction rs generalizing acc with
  | nil => exact h
  | cons r rs2 ih =>
    exact ih _ (nodup_keysOf_addVote _ _ _ _ h)

lemma nodup_keysOf_collectVotes (fs : List AgentFinding) :
    (keysOf (collectVotes fs)).Nodup := by
  rw [collectVotes_eq_foldl]
  exact nodup_keysOf_foldl _ [] List.nodup_nil

lemma lookupEntry_of_mem {l : List VoteEntry} (hnd : (keysOf l).Nodup)
    {e : VoteEntry} (he : e ∈ l) : lookupEntry e.1 l = some e.2 := by
  induction l with
  | nil => cases he
  | cons f rest ih =>
    rw [keysOf_cons] at hnd
    have hnd2 := List.nodup_cons.mp hnd
    rcases List.mem_cons.mp he with rfl | hmem
    · simp [lookupEntry]
    · have hf : f.1 ≠ e.1 := by
        intro hfe
        exact hnd2.1 (hfe ▸ List.mem_map_of_mem (fun x => x.1) hmem)
      simp only [lookupEntry, if_neg hf]
      exact ih hnd2.2 hmem

lemma countP_key_zero (l : List VoteEntry) (k : String)
    (h : k ∉ keysOf l) :
    ((l.filter fun e => 2 ≤ e.2.2.length).countP fun e => e.1 == k) = 0 := by
  rw [List.countP_eq_zero]
  intro e he hk
  have hmem := (List.mem_filter.mp he).1
  have : e.1 = k := by simpa using hk
  exact h (this ▸ List.mem_map_of_mem (fun x => x.1) hmem)

lemma countP_filter_key (l : List VoteEntry) (hnd : (keysOf l).Nodup)
    (k : String) :
    ((l.filter fun e => 2 ≤ e.2.2.length).countP fun e => e.1 == k) =
      match lookupEntry k l with
      | some dvs => if 2 ≤ dvs.2.length then 1 else 0
      | none => 0 := by
  induction l with
  | nil => simp [lookupEntry]
  | cons e rest ih =>
    rw [keysOf_cons] at hnd
    have hnd2 := List.nodup_cons.mp hnd
    have hndr : (keysOf rest).Nodup := hnd2.2
    by_cases he : e.1 = k
    · have hk : k ∉ keysOf rest := he ▸ hnd2.1
      have hrest := countP_key_zero rest k hk
      by_cases h2 : 2 ≤ e.2.2.length
      · simp [List.filter_cons, h2, List.countP_cons, he, lookupEntry, hrest]
      · simp [List.filter_cons, h2, lookupEntry, he, hrest]
    · by_cases h2 : 2 ≤ e.2.2.length
      · simp [List.filter_cons, h2, List.countP_cons, he, lookupEntry,
          ih hndr]
      · simp [List.filter_cons, h2, lookupEntry, he, ih hndr]

/-- How the classification loop renders one qualifying vote-table entry:
severity and confidence from the vote count against the hard-coded
thresholds 3 and 2, `detected_by` the vote list itself, description from
the stored details. -/
def entryRenders (e : VoteEntry) (i : ReviewIssue) : Prop :=
  i.severity = (if 3 ≤ e.2.2.length then Severity.error else Severity.warning) ∧
  i.confidence = (if 3 ≤ e.2.2.length then "high" else "medium") ∧
  i.detected_by = e.2.2 ∧
  i.description = e.2.1.description.getD ""

/-- The vote-table entries with at least two votes, in table order — the
entries the classification loop does not discard. -/
def qualifyingEntries (fs : List AgentFinding) : List VoteEntry :=
  (collectVotes fs).filter fun e => 2 ≤ e.2.2.length

lemma classifyVotes_renders (n : Nat) (entries : List VoteEntry)
    (issues : List ReviewIssue) (h : classifyVotes n entries = some issues) :
    List.Forall₂ entryRenders
      (entries.filter fun e => 2 ≤ e.2.2.length) issues := by
  induction entries generalizing n issues with
  | nil =>
    simp only [classifyVotes, Option.some.injEq] at h
    subst h
    simp only [List.filter_nil]
    exact List.Forall₂.nil
  | cons e rest ih =>
    simp only [classifyVotes] at h
    by_cases h3 : 3 ≤ e.2.2.length
    · rw [if_pos h3] at h
      split at h
      · exact absurd h (by simp)
      · split at h
        · exact absurd h (by simp)
        · rename_i tail htail
          simp only [Option.some.injEq] at h
          subst h
          have hf : (e :: rest).filter (fun e => 2 ≤ e.2.2.length) =
              e :: rest.filter fun e => 2 ≤ e.2.2.length := by
            simp [List.filter_cons, (by omega : 2 ≤ e.2.2.length)]
          rw [hf]
          exact List.Forall₂.cons
            ⟨by simp [h3], by simp [h3], rfl, rfl⟩ (ih _ _ htail)
    · rw [if_neg h3] at h
      by_cases h2 : e.2.2.length = 2
      · rw [if_pos h2] at h
        split at h
        · exact absurd h (by simp)
        · split at h
          · exact absurd h (by simp)
          · rename_i tail htail
            simp only [Option.some.injEq] at h
            subst h
            have hf : (e :: rest).filter (fun e => 2 ≤ e.2.2.length) =
                e :: rest.filter fun e => 2 ≤ e.2.2.length := by
              simp [List.filter_cons, (by omega : 2 ≤ e.2.2.length)]
            rw [hf]
            exact List.Forall₂.cons
              ⟨by simp [h3], by simp [h3], rfl, rfl⟩ (ih _ _ htail)
      · rw [if_neg h2] at h
        have hn2 : ¬ 2 ≤ e.2.2.length := by omega
        have hf : (e :: rest).filter (fun e => 2 ≤ e.2.2.length) =
            rest.filter fun e => 2 ≤ e.2.2.length := by
          simp [List.filter_cons, hn2]
        rw [hf]
        exact ih _ _ h

/-! ## C5 -/

def c5DupItem : RawFinding :=
  { type := some "spec_program_mismatch", location := some "x" }

def c5Findings : List AgentFinding :=
  [{ model := "gemini", issues := [c5DupItem, c5DupItem] }]

/-- C5 counterexample: one agent reporting the same key twice gives a
vote-table entry whose corroborating-agent list is
`["gemini", "gemini"]` — it contains a duplicate, so it is not the set of
distinct agent names the claim describes. -/
theorem C5_counterexample :
    lookupEntry (findingKey c5DupItem) (collectVotes c5Findings) =
      some (c5DupItem, ["gemini", "gemini"]) ∧
    ¬ (["gemini", "gemini"] : List String).Nodup := by
  exact ⟨by decide, by decide⟩

/-- C5 (amended): each distinct key has exactly one vote-table entry (the
table's keys are duplicate-free); that entry's details — supplying the
description and suggested fix — are the first-encountered raw finding for
the key in dispatcher output order, and its corroborating-agent list holds
the reporting agents with one entry per raw report in encounter order,
keeping duplicates when one agent reports the same key twice. -/
theorem C5_normalizer_grouping (fs : List AgentFinding) (k : String) :
    (keysOf (collectVotes fs)).Nodup ∧
    lookupEntry k (collectVotes fs) =
      entryOfReports (keyReports k (okReports fs)) :=
  ⟨nodup_keysOf_collectVotes fs, lookupEntry_collectVotes fs k⟩

/-! ## C1 -/

def c1DupItem : RawFinding :=
  { type := some "spec_program_mismatch", location := some "y" }

def c1DupFindings : List AgentFinding :=
  [{ model := "gemini", issues := [c1DupItem, c1DupItem] }]

/-- C1 counterexample: a key corroborated by only one distinct agent
(`gemini`, which reported it twice) still yields a `warning` issue, because
the fallback counts votes per raw report rather than per distinct agent —
the claim's single-agent-discard case fails. -/
theorem C1_counterexample :
    (consensus_filter c1DupFindings).map
        (List.map fun i => (i.severity, i.detected_by.dedup)) =
      some [(Severity.warning, ["gemini"])] := by
  decide

/-- C1 (amended): under the fallback rule with its hard-coded thresholds
3 and 2, corroboration is counted per raw report (an agent reporting a key
twice counts twice). For every distinct key: the emitted issues correspond
one-to-one, in table order, to the keys with at least 2 reports, with
severity `error` and confidence `"high"` at 3 or more reports and severity
`warning` and confidence `"medium"` at exactly 2; a key with at most 1
report yields no issue; and the issue's `detected_by` lists the reporting
agents, one entry per report, in dispatcher output order. -/
theorem C1_fallback_consensus (fs : List AgentFinding)
    (issues : List ReviewIssue) (h : consensus_filter fs = some issues)
    (k : String) :
    List.Forall₂ entryRenders (qualifyingEntries fs) issues ∧
    ((qualifyingEntries fs).countP fun e => e.1 == k) =
      (if 2 ≤ (keyReports k (okReports fs)).length then 1 else 0) ∧
    (∀ e ∈ qualifyingEntries fs, e.1 = k →
        e.2.2 = (keyReports k (okReports fs)).map Prod.fst) := by
  have hnd := nodup_keysOf_collectVotes fs
  have hlook := lookupEntry_collectVotes fs k
  refine ⟨classifyVotes_renders 1 _ _ h, ?_, ?_⟩
  · rw [qualifyingEntries, countP_filter_key _ hnd k, hlook]
    cases hkr : keyReports k (okReports fs) with
    | nil => simp [entryOfReports]
    | cons r krs => simp [entryOfReports]
  · intro e he hek
    have hmem : e ∈ collectVotes fs := (List.mem_filter.mp he).1
    have hle : lookupEntry k (collectVotes fs) = some e.2 :=
      hek ▸ lookupEntry_of_mem hnd hmem
    rw [hlook] at hle
    cases hkr : keyReports k (okReports fs) with
    | nil => rw [hkr] at hle; exact absurd hle (by simp [entryOfReports])
    | cons r krs =>
      rw [hkr] at hle
      simp only [entryOfReports, Option.some.injEq] at hle
      rw [← hle]
      rfl

def c1wItem : RawFinding :=
  { type := some "spec_program_mismatch", location := some "Order#total",
    description := some "total mismatch" }

def c1wLoneItem : RawFinding :=
  { type := some "program_test_gap", location := some "Order#cancel" }

def c1wFindings : List AgentFinding :=
  [ { model := "chatgpt", issues := [c1wItem] },
    { model := "gemini", issues := [c1wItem] },
    { model := "codex", issues := [c1wItem] },
    { model := "qwen", issues := [c1wLoneItem] } ]

def c1wIssues : List ReviewIssue :=
  [ { id := "ISSUE-001", severity := Severity.error,
      issue_type := IssueType.spec_program_mismatch,
      description := "total mismatch",
      detected_by := ["chatgpt", "gemini", "codex"],
      confidence := "high" } ]

/-- C1 witness: the spec's concrete scenario — three agents corroborate
`Order#total`, one agent alone reports `Order#cancel`; the run yields
exactly the single `error`/`"high"` issue and discards the lone finding. -/
theorem C1_witness :
    List.Forall₂ entryRenders (qualifyingEntries c1wFindings) c1wIssues ∧
    ((qualifyingEntries c1wFindings).countP
        fun e => e.1 == "spec_program_mismatch:Order#total") =
      (if 2 ≤ (keyReports "spec_program_mismatch:Order#total"
          (okReports c1wFindings)).length then 1 else 0) ∧
    (∀ e ∈ qualifyingEntries c1wFindings,
        e.1 = "spec_program_mismatch:Order#total" →
        e.2.2 = (keyReports "spec_program_mismatch:Order#total"
          (okReports c1wFindings)).map Prod.fst) :=
  C1_fallback_consensus c1wFindings c1wIssues (by decide)
    "spec_program_mismatch:Order#total"
